import Mathlib

/-!
# Verification of the Globalping VS Code client measurement core

Shallow embedding of the measurement execution and polling engine of the
`globalping-vscode` repository, together with proofs about the claims of its
specification.  The embedded functions are translated from
`src/services/globalpingClient.ts`, `src/services/errors.ts` and the
`RateLimitHandler` in `src/services/testConfigBuilder.ts`.

JavaScript conventions used throughout the embedding:
* `undefined`/`null`-able values are `Option`s;
* a JS number used in a boolean position is falsy exactly when it is `0`
  (the code never produces `NaN` in those positions on the modelled domain);
* a JS string is falsy exactly when it is empty;
* `parseInt` is modelled by `parseIntJs` (optional sign, longest digit
  prefix, `none` for NaN); header values that would parse to `NaN` are
  modelled as absent fields, which agrees with the source on every input
  whose headers are numeric strings (the domain of all claims);
* a JS `Date` is modelled by `JsDate` (`invalid` for Invalid Date, otherwise
  a millisecond timestamp).
-/

/-- JS `String.prototype.startsWith`-style prefix test on character lists. -/
def listPrefixOf : List Char → List Char → Bool
  | [], _ => true
  | _ :: _, [] => false
  | a :: as, b :: bs => a == b && listPrefixOf as bs

/-- JS `String.prototype.includes` on character lists. -/
def listInfixOf (pat : List Char) : List Char → Bool
  | [] => listPrefixOf pat []
  | c :: cs => listPrefixOf pat (c :: cs) || listInfixOf pat cs

/-- JS `String.prototype.includes`. -/
def strContains (s pat : String) : Bool :=
  listInfixOf pat.toList s.toList

/-- Value of a longest leading digit run; `none` when there is none (NaN). -/
def parseDigits (l : List Char) : Option Nat :=
  let ds := l.takeWhile (fun c => c.isDigit)
  if ds.isEmpty then none
  else some (ds.foldl (fun acc c => acc * 10 + (c.toNat - 48)) 0)

/-- JS `parseInt` on the modelled domain: optional sign then digit prefix. -/
def parseIntJs (s : String) : Option Int :=
  match s.toList with
  | '-' :: rest => (parseDigits rest).map (fun n => -(n : Int))
  | '+' :: rest => (parseDigits rest).map (fun n => (n : Int))
  | l => (parseDigits l).map (fun n => (n : Int))

/-- JS truthiness of a possibly-absent string. -/
def strTruthy : Option String → Bool
  | some s => !(s == "")
  | none => false

/-- JS `a || b` for strings, as used to build error messages
(an `undefined` result yields an empty `Error.message`). -/
def jsStrOr (a b : Option String) : String :=
  match a with
  | some s => if s = "" then (match b with | some t => t | none => "") else s
  | none => match b with | some t => t | none => ""

/-- A JS `Date`: either Invalid Date or a millisecond timestamp. -/
inductive JsDate where
  | invalid
  | atMs (ms : Int)
deriving DecidableEq, Repr

/-- `new Date() > d` for a `JsDate` (always false against Invalid Date). -/
def nowGt (now : Int) : JsDate → Bool
  | .invalid => false
  | .atMs t => now > t

/-- The fields of a `RateLimitError` from `src/services/errors.ts`. -/
structure RLPayload where
  message : String
  retryAfter : Option Int := none
  limit : Option Int := none
  remaining : Option Int := none
  reset : Option JsDate := none
deriving DecidableEq, Repr

/-- The error classes of `src/services/errors.ts`, one constructor per class
(`generic` is the base `GlobalpingError`; the class determines the `code`). -/
inductive GPError where
  | generic (message : String)
  | validation (message : String)
  | authentication (message : String)
  | rateLimit (p : RLPayload)
  | network (message : String)
  | timeout (message : String)
  | server (message : String) (statusCode : Option Nat)
deriving DecidableEq, Repr

/-- Rate-limit response headers read by `RateLimitHandler.handleResponse`. -/
structure Headers where
  retryAfter : Option String := none
  xLimit : Option String := none
  xRemaining : Option String := none
  xReset : Option String := none
deriving DecidableEq, Repr

/-- The `response` object attached to a thrown transport error
(`error.response`): an HTTP status, the optional `data.error.message`
body field, and the response headers. -/
structure RespInfo where
  status : Nat
  dataMessage : Option String := none
  headers : Headers := {}
deriving DecidableEq, Repr

/-- The data carried by an `ApiError` of the globalping library:
`error.response.status` and `error.data?.error?.message`. -/
structure ApiErrInfo where
  status : Nat
  dataMessage : Option String := none
deriving DecidableEq, Repr

/-- A raw thrown JS error as inspected by `normalizeError`,
`executeWithRetry` and `isNetworkError`: `rl` is set exactly when the value
is an instance of `RateLimitError`, `api` exactly when it is an instance of
the library's `ApiError`, `resp` models `error.response`, and `message` and
`code` the homonymous properties. -/
structure JsErr where
  rl : Option RLPayload := none
  api : Option ApiErrInfo := none
  resp : Option RespInfo := none
  message : Option String := none
  code : Option String := none
deriving DecidableEq, Repr

/-- The status switch of `GlobalpingClient.normalizeError` (the same table
appears twice in the source, once for `ApiError` and once for legacy
`error.response` failures, with the message already extracted). -/
def statusSwitch (status : Nat) (message : String) : GPError :=
  if status = 400 then .validation message
  else if status = 401 then .authentication message
  else if status = 403 then .authentication message
  else if status = 429 then .rateLimit { message := message }
  else if status = 404 then .generic "Resource not found"
  else if status = 422 then .generic message
  else if status = 500 then .server message (some 500)
  else if status = 502 then .server message (some 502)
  else if status = 503 then .server message (some 503)
  else .generic message

/-- `GlobalpingClient.isNetworkError`. -/
def isNetworkError (e : JsErr) : Bool :=
  e.code == some "ECONNREFUSED" ||
  e.code == some "ENOTFOUND" ||
  e.code == some "ENETUNREACH" ||
  e.code == some "EAI_AGAIN" ||
  (match e.message with
   | some m => strContains m "network"
   | none => false)

/-- `GlobalpingClient.normalizeError` (`none` models a null/undefined raw
error). -/
def normalizeError (error : Option JsErr) : GPError :=
  match error with
  | none => .generic "Unknown error occurred"
  | some e =>
    match e.rl with
    | some p => .rateLimit p
    | none =>
      if strTruthy e.message &&
          strContains (jsStrOr e.message none) "Cannot read properties of undefined" then
        .generic "Globalping client not initialized. Please try again."
      else
        match e.api with
        | some a => statusSwitch a.status (jsStrOr a.dataMessage e.message)
        | none =>
          match e.resp with
          | some r => statusSwitch r.status (jsStrOr r.dataMessage e.message)
          | none =>
            if isNetworkError e then
              .network "Cannot reach Globalping API. Check your internet connection."
            else if e.code == some "ETIMEDOUT" || e.code == some "ESOCKETTIMEDOUT" then
              .timeout "Request timeout"
            else
              .generic (jsStrOr e.message (some "Unknown error occurred"))

/-! ## Rate Limit Tracker (`RateLimitHandler`) -/

/-- The mutable fields of `RateLimitHandler`. -/
structure RLState where
  isRateLimited : Bool := false
  nextResetTime : Option JsDate := none
deriving DecidableEq, Repr

/-- `RateLimitHandler.MAX_RETRIES`. -/
def MAX_RETRIES : Nat := 5

/-- `RateLimitHandler.BASE_DELAY` (milliseconds). -/
def BASE_DELAY : Nat := 1000

/-- `RateLimitHandler.shouldRetry`. -/
def shouldRetry (attempt : Nat) : Bool := attempt < MAX_RETRIES

/-- `RateLimitHandler.getBackoffDelay`. -/
def getBackoffDelay (attempt : Nat) : Nat := BASE_DELAY * 2 ^ attempt

/-- `new Date(parseInt(reset) * 1000)` for a reset header value. -/
def jsDateOfSeconds (s : String) : JsDate :=
  match parseIntJs s with
  | some n => .atMs (n * 1000)
  | none => .invalid

/-- `RateLimitHandler.handleResponse`: returns the updated state and
`some payload` exactly when the method throws a `RateLimitError`. -/
def handleResponse (response : RespInfo) (s : RLState) : RLState × Option RLPayload :=
  if response.status = 429 then
    let retryAfter := response.headers.retryAfter
    let limit := response.headers.xLimit
    let remaining := response.headers.xRemaining
    let reset := response.headers.xReset
    let s1 : RLState :=
      { isRateLimited := true,
        nextResetTime :=
          if strTruthy reset then some (jsDateOfSeconds (reset.getD "")) else s.nextResetTime }
    let retrySeconds : Option Int :=
      if strTruthy retryAfter then parseIntJs (retryAfter.getD "") else none
    let rsTruthy : Bool :=
      match retrySeconds with
      | some n => !(n == 0)
      | none => false
    let rsText := toString (retrySeconds.getD 0)
    (s1, some {
      message := "Rate limit exceeded. " ++
        (if rsTruthy then s!"Retry after {rsText} seconds." else "Please wait before retrying."),
      retryAfter := if rsTruthy then retrySeconds else none,
      limit := if strTruthy limit then parseIntJs (limit.getD "") else none,
      remaining := if strTruthy remaining then parseIntJs (remaining.getD "") else none,
      reset := s1.nextResetTime })
  else
    match response.headers.xRemaining with
    | some rem => ({ s with isRateLimited := parseIntJs rem == some 0 }, none)
    | none => (s, none)

/-- `RateLimitHandler.isCurrentlyRateLimited`: result plus the (lazily
cleared) state, with `now` the current time in milliseconds. -/
def isCurrentlyRateLimited (now : Int) (s : RLState) : Bool × RLState :=
  if !s.isRateLimited then (false, s)
  else
    match s.nextResetTime with
    | some d =>
      if nowGt now d then (false, { isRateLimited := false, nextResetTime := none })
      else (true, s)
    | none => (true, s)

/-- `RateLimitHandler.getNextResetTime`. -/
def getNextResetTime (s : RLState) : Option JsDate := s.nextResetTime

/-! ## Request Executor (`GlobalpingClient.executeWithRetry`) -/

/-- The `RateLimitError` thrown by `handleResponse`, as a raw JS error value
(it is an instance of `RateLimitError`, so `rl` is set). -/
def jsErrOfRL (p : RLPayload) : JsErr :=
  { rl := some p, message := some p.message }

/-- Observable outcome of one `executeWithRetry` call: the returned value or
thrown error, how many times the operation was invoked, the waits performed
(in order, in milliseconds), and the rate-limit tracker state afterwards. -/
structure ExecResult (α : Type) where
  result : Except JsErr α
  invocations : Nat
  waits : List Nat
  state : RLState

/-- The `for (let attempt = 0; attempt < 6; attempt++)` loop of
`executeWithRetry`; `fuel` is the number of remaining iterations and
`op attempt` the outcome of the operation on that attempt.  The fuel-0 case
is the `throw lastError` after the loop. -/
def executeWithRetryAux {α : Type} (op : Nat → Except JsErr α) :
    Nat → Nat → RLState → Option JsErr → ExecResult α
  | 0, _, s, lastError =>
    { result := .error (lastError.getD {}), invocations := 0, waits := [], state := s }
  | fuel + 1, attempt, s, _ =>
    match op attempt with
    | .ok v => { result := .ok v, invocations := 1, waits := [], state := s }
    | .error e =>
      match e.resp with
      | some r =>
        if r.status = 429 then
          match handleResponse r s with
          | (s1, some p) =>
            -- handleResponse throws the RateLimitError, which propagates
            { result := .error (jsErrOfRL p), invocations := 1, waits := [], state := s1 }
          | (s1, none) =>
            -- unreachable when r.status = 429; mirrors the source's retry branch
            if shouldRetry attempt then
              let rest := executeWithRetryAux op fuel (attempt + 1) s1 (some e)
              { rest with invocations := rest.invocations + 1,
                          waits := getBackoffDelay attempt :: rest.waits }
            else
              { result := .error e, invocations := 1, waits := [], state := s1 }
        else if 500 ≤ r.status && r.status < 600 && attempt == 0 then
          let rest := executeWithRetryAux op fuel (attempt + 1) s (some e)
          { rest with invocations := rest.invocations + 1, waits := 2000 :: rest.waits }
        else if isNetworkError e && attempt == 0 then
          let rest := executeWithRetryAux op fuel (attempt + 1) s (some e)
          { rest with invocations := rest.invocations + 1, waits := 2000 :: rest.waits }
        else
          { result := .error e, invocations := 1, waits := [], state := s }
      | none =>
        if isNetworkError e && attempt == 0 then
          let rest := executeWithRetryAux op fuel (attempt + 1) s (some e)
          { rest with invocations := rest.invocations + 1, waits := 2000 :: rest.waits }
        else
          { result := .error e, invocations := 1, waits := [], state := s }

/-- `GlobalpingClient.executeWithRetry`. -/
def executeWithRetry {α : Type} (op : Nat → Except JsErr α) (s : RLState) : ExecResult α :=
  executeWithRetryAux op 6 0 s none

/-! ## Polling option resolution (`GlobalpingClient.pollMeasurement`) -/

/-- The measurement kinds of the `timeouts` record. -/
inductive MeasurementType where
  | ping | http | dns | traceroute | mtr
deriving DecidableEq, Repr

/-- The `timeouts` record of `GlobalpingClient` (default per-kind timeouts
in milliseconds). -/
def timeouts : MeasurementType → Int
  | .ping => 30000
  | .http => 45000
  | .dns => 30000
  | .traceroute => 60000
  | .mtr => 90000

/-- The `PollOptions` interface fields relevant to option resolution. -/
structure PollOptions where
  interval : Option Int := none
  timeout : Option Int := none
deriving DecidableEq, Repr

/-- JS `v || d` for numbers (`0` is falsy). -/
def jsNumOr (v : Option Int) (d : Int) : Int :=
  match v with
  | some n => if n = 0 then d else n
  | none => d

/-- `const interval = options?.interval || 2000`. -/
def resolvedInterval (options : Option PollOptions) : Int :=
  jsNumOr (options.bind (·.interval)) 2000

/-- `const timeout = options?.timeout || this.timeouts[type]`. -/
def resolvedTimeout (options : Option PollOptions) (type : MeasurementType) : Int :=
  jsNumOr (options.bind (·.timeout)) (timeouts type)

/-! ## Public operation boundary

Each public operation of `GlobalpingClient` is modelled as a function of an
explicit behaviour record describing what the collaborators
(`ensureInitialized`, the transport handle, the config provider) do during
the call.  Failures surfaced to the caller live in `Surfaced`, whose `raw`
constructor exists so that an uncaught transport-library error *could* be
expressed — the boundary theorems prove it never is. -/

/-- A failure surfaced across the client's public boundary: either a
normalized `GlobalpingError` or a raw transport-library error. -/
inductive Surfaced where
  | gp (e : GPError)
  | raw (e : JsErr)
deriving DecidableEq, Repr

/-- True when a result surfaces a raw (un-normalized) error. -/
def surfacedRaw {α : Type} : Except Surfaced α → Bool
  | .error (.raw _) => true
  | _ => false

/-- A `{ok, data | errorBody}` response of the globalping library (with
`throwApiErrors: false`), as consumed after `executeWithRetry`. -/
structure ApiResponse (α : Type) where
  ok : Bool
  status : Nat := 0
  errMessage : Option String := none
  data : α

/-- The `ApiError` built by `new ApiError(request, response, data)` from a
non-ok response, as seen by `normalizeError`. -/
def apiErrOfResponse {α : Type} (response : ApiResponse α) : JsErr :=
  { api := some { status := response.status, dataMessage := response.errMessage } }

/-- Collaborator behaviour during one call of `createMeasurement`,
`getMeasurement` or `getProbes`: the outcome of `ensureInitialized`
(which only ever throws `GlobalpingError`s it constructs itself), the
defensive `this.client` presence check, and the per-attempt outcome of the
wrapped library call. -/
structure OpBehavior (α : Type) where
  initOutcome : Except GPError Unit
  clientPresent : Bool := true
  opResults : Nat → Except JsErr (ApiResponse α)

/-- Common body of `createMeasurement`, `getMeasurement` and `getProbes`:
`ensureInitialized`, the defensive client check, then a try block running
`executeWithRetry` and the `response.ok` check, whose catch rethrows
`this.normalizeError(error)`. -/
def clientOp {α : Type} (b : OpBehavior α) (s : RLState) : Except Surfaced α :=
  match b.initOutcome with
  | .error g => .error (.gp g)
  | .ok _ =>
    if !b.clientPresent then
      .error (.gp (.generic
        "Globalping client not initialized after waiting. Please restart VS Code."))
    else
      let ex := executeWithRetry b.opResults s
      match ex.result with
      | .error e => .error (.gp (normalizeError (some e)))
      | .ok response =>
        if !response.ok then
          .error (.gp (normalizeError (some (apiErrOfResponse response))))
        else .ok response.data

/-- `GlobalpingClient.createMeasurement`. -/
def createMeasurement {α : Type} (b : OpBehavior α) (s : RLState) : Except Surfaced α :=
  clientOp b s

/-- `GlobalpingClient.getMeasurement`. -/
def getMeasurement {α : Type} (b : OpBehavior α) (s : RLState) : Except Surfaced α :=
  clientOp b s

/-- `GlobalpingClient.getProbes`. -/
def getProbes {α : Type} (b : OpBehavior α) (s : RLState) : Except Surfaced α :=
  clientOp b s

/-- Collaborator behaviour during one `pollMeasurement` call:
`ensureInitialized`, the client check, and the settlement of the
`awaitMeasurement` promise (the primary strategy). -/
structure PollBehavior (α : Type) where
  initOutcome : Except GPError Unit
  clientPresent : Bool := true
  awaitResult : Except JsErr (ApiResponse α)

/-- The result surfaced by `GlobalpingClient.pollMeasurement` (identical in
the with-progress and no-progress branches: both await `awaitMeasurement`
inside a try whose catch rethrows `this.normalizeError(error)`; the
secondary progress loop swallows its own failures). -/
def pollMeasurement {α : Type} (b : PollBehavior α) : Except Surfaced α :=
  match b.initOutcome with
  | .error g => .error (.gp g)
  | .ok _ =>
    if !b.clientPresent then
      .error (.gp (.generic
        "Globalping client not initialized after waiting. Please restart VS Code."))
    else
      match b.awaitResult with
      | .error e => .error (.gp (normalizeError (some e)))
      | .ok response =>
        if !response.ok then
          .error (.gp (normalizeError (some (apiErrOfResponse response))))
        else .ok response.data

/-! ## `GlobalpingClient.getRateLimits` -/

/-- `result.rateLimit?.measurements?.create` of the limits response. -/
structure CreateLimits where
  limit : Option Int := none
  remaining : Option Int := none
  reset : Option Int := none
deriving DecidableEq, Repr

/-- The data of a successful limits response. -/
structure LimitsData where
  create : Option CreateLimits := none
  credits : Option Int := none
deriving DecidableEq, Repr

/-- The `{ok, response?.status, data}` shape of a `getLimits()` response. -/
structure LimitsResp where
  ok : Bool
  status : Option Nat := none
  errMessage : Option String := none
  data : LimitsData := {}
deriving DecidableEq, Repr

/-- The `RateLimitInfo` value returned on success. -/
structure RateLimitInfo where
  limit : Int
  remaining : Int
  reset : JsDate
  isAuthenticated : Bool
  credits : Option Int := none
deriving DecidableEq, Repr

/-- Collaborator behaviour during one `getRateLimits` call. -/
structure GRLBehavior where
  initOutcome : Except GPError Unit
  clientPresent : Bool := true
  tokenResult : Except JsErr (Option String) := .ok none
  limitsResult : Except JsErr LimitsResp
deriving Repr

/-- The try body of `GlobalpingClient.getRateLimits`: it may throw raw
errors (from `getAuthToken`/`getLimits`), the `AuthenticationError` built
for 401/403, or the `ApiError` built for other non-ok responses.
(Raw collaborator errors are never instances of `AuthenticationError`.) -/
def getRateLimitsTry (tokenResult : Except JsErr (Option String))
    (limitsResult : Except JsErr LimitsResp) : Except Surfaced (Option RateLimitInfo) :=
  match tokenResult with
  | .error e => .error (.raw e)
  | .ok token =>
    match limitsResult with
    | .error e => .error (.raw e)
    | .ok response =>
      if !response.ok then
        if response.status = some 401 || response.status = some 403 then
          .error (.gp (.authentication
            (jsStrOr response.errMessage (some "Invalid or expired API token"))))
        else
          .error (.raw { api := some { status := response.status.getD 0,
                                       dataMessage := response.errMessage } })
      else
        match response.data.create with
        | none => .ok none
        | some c =>
          match c.limit, c.remaining with
          | some l, some r =>
            .ok (some {
              limit := l,
              remaining := r,
              reset := .atMs ((c.reset.getD 0) * 1000),
              isAuthenticated := strTruthy token,
              credits := response.data.credits })
          | _, _ => .ok none

/-- `GlobalpingClient.getRateLimits`: `ensureInitialized`, the defensive
client check (which returns `null`), then the try body, whose catch
rethrows only `AuthenticationError` and turns everything else into `null`. -/
def getRateLimits (b : GRLBehavior) : Except Surfaced (Option RateLimitInfo) :=
  match b.initOutcome with
  | .error g => .error (.gp g)
  | .ok _ =>
    if !b.clientPresent then .ok none
    else
      match getRateLimitsTry b.tokenResult b.limitsResult with
      | .ok v => .ok v
      | .error (.gp (.authentication m)) => .error (.gp (.authentication m))
      | .error _ => .ok none

/-- True when the call threw anything that is not an `AuthenticationError`. -/
def throwsNonAuth {α : Type} : Except Surfaced α → Bool
  | .error (.gp (.authentication _)) => false
  | .error _ => true
  | .ok _ => false

/-! ## Client Lifecycle Manager (`ensureInitialized`) as a cooperative machine

JavaScript's event loop runs each task synchronously between `await`s, so
`ensureInitialized` is modelled as a coroutine with one state per suspension
point, `initializeClient` as a one-suspension task (its only `await` is
`config.getAuthToken()`), and the system as a step function driven by an
arbitrary schedule.  A schedule entry naming a non-runnable entity (a caller
suspended on a still-pending promise, a settled task) is a no-op, so every
list of entries denotes a valid interleaving. -/

/-- The promise of one `initializeClient()` run. -/
inductive TaskSt where
  | pending
  | fulfilled
  | rejected
deriving DecidableEq, Repr

/-- One caller inside `ensureInitialized`:
`start` — about to run the entry block;
`awaitingShared p` — suspended at `await this.initializationPromise` in the
first block; `awaitingRetry p` — suspended awaiting the attempt it started
in the retry block; `doneOk`/`doneErr` — returned / threw. -/
inductive CallerSt where
  | start
  | awaitingShared (p : Nat)
  | awaitingRetry (p : Nat)
  | doneOk
  | doneErr
deriving DecidableEq, Repr

/-- Shared state: `this.client` validity, `this.initializationPromise`
(as the index of a task), every `initializeClient` run ever started, and the
callers. -/
structure InitCfg where
  clientValid : Bool
  initPromise : Option Nat
  tasks : List TaskSt
  callers : List CallerSt
deriving DecidableEq, Repr

/-- A schedulable entity: a caller's next slice, or the settlement of an
`initializeClient` run (its `getAuthToken` await resolving, then the rest of
the body running synchronously). -/
inductive InitEnt where
  | callerEnt (i : Nat)
  | taskEnt (p : Nat)
deriving DecidableEq, Repr

/-- The retry block: `this.initializationPromise = this.initializeClient();
await this.initializationPromise` — a fresh pending task is published and
the caller suspends on it. -/
def startRetry (cfg : InitCfg) (i : Nat) : InitCfg :=
  let newId := cfg.tasks.length
  { cfg with tasks := cfg.tasks ++ [.pending],
             initPromise := some newId,
             callers := cfg.callers.set i (.awaitingRetry newId) }

/-- One cooperative step.  Caller slices follow `ensureInitialized` line by
line; a task step is the settlement of `initializeClient` (on success it
publishes the validated client, on failure it clears `this.client` and
rejects). -/
def initStep (outcome : Nat → Bool) (cfg : InitCfg) : InitEnt → InitCfg
  | .callerEnt i =>
    match cfg.callers.get? i with
    | none => cfg
    | some c =>
      match c with
      | .start =>
        if cfg.clientValid then { cfg with callers := cfg.callers.set i .doneOk }
        else
          match cfg.initPromise with
          | some p => { cfg with callers := cfg.callers.set i (.awaitingShared p) }
          | none => startRetry cfg i
      | .awaitingShared p =>
        match cfg.tasks.get? p with
        | some .fulfilled =>
          -- `this.initializationPromise = null`; valid → return,
          -- invalid → throw, caught, fall through to the retry block
          if cfg.clientValid then
            { cfg with initPromise := none, callers := cfg.callers.set i .doneOk }
          else startRetry { cfg with initPromise := none } i
        | some .rejected =>
          -- catch: warn, `this.initializationPromise = null`, retry block
          startRetry { cfg with initPromise := none } i
        | _ => cfg
      | .awaitingRetry p =>
        match cfg.tasks.get? p with
        | some .fulfilled =>
          if cfg.clientValid then
            { cfg with initPromise := none, callers := cfg.callers.set i .doneOk }
          else
            -- final check fails: caught, promise cleared, GlobalpingError thrown
            { cfg with initPromise := none, callers := cfg.callers.set i .doneErr }
        | some .rejected =>
          { cfg with initPromise := none, callers := cfg.callers.set i .doneErr }
        | _ => cfg
      | .doneOk => cfg
      | .doneErr => cfg
  | .taskEnt p =>
    match cfg.tasks.get? p with
    | some .pending =>
      if outcome p then
        { cfg with clientValid := true, tasks := cfg.tasks.set p .fulfilled }
      else
        { cfg with clientValid := false, tasks := cfg.tasks.set p .rejected }
    | _ => cfg

/-- Run a schedule. -/
def initRun (outcome : Nat → Bool) (cfg : InitCfg) (sched : List InitEnt) : InitCfg :=
  sched.foldl (initStep outcome) cfg

/-- The state in which `ensureInitialized` is entered while no valid handle
exists: the constructor already started one `initializeClient` run (task 0)
and stored its promise; `n` callers are about to run. -/
def initCfg0 (n : Nat) : InitCfg :=
  { clientValid := false,
    initPromise := some 0,
    tasks := [.pending],
    callers := List.replicate n .start }

/-! ## Polling Engine (`pollMeasurement` with `onProgress`) as a machine

The secondary progress loop, the primary `awaitMeasurement` settlement and
the `AbortController` signal, instrumented with counters for the events the
race-bound claim is about. -/

/-- The secondary loop's suspension points: in a `getMeasurement` fetch, in
the interval wait, or exited. -/
inductive LoopSt where
  | awaitingFetch
  | waitingInterval
  | exited
deriving DecidableEq, Repr

/-- A measurement snapshot status as tested by the loop
(`finished` covers any status other than `'in-progress'`). -/
inductive SnapStatus where
  | inProgress
  | finished
deriving DecidableEq, Repr

/-- Machine state plus event counters; the `...AfterAbort` counters count
events that happen when `abortController.signal.aborted` is already true. -/
structure PollCfg where
  aborted : Bool
  primaryDone : Bool
  loop : LoopSt
  fetchesStarted : Nat
  fetchesCompleted : Nat
  callbacks : Nat
  fetchesStartedAfterAbort : Nat
  fetchesCompletedAfterAbort : Nat
  callbacksAfterAbort : Nat
deriving DecidableEq, Repr

/-- Environment/scheduler actions: the pending fetch settles (with a
snapshot status, or by rejecting), the interval timer fires, the interval
promise's abort rejection is delivered, or the primary `awaitMeasurement`
settles (its continuation calls `abortController.abort()` whether the
response is ok or not). -/
inductive PollAct where
  | fetchReturn (st : SnapStatus)
  | fetchFail
  | timerFire
  | abortResume
  | primaryComplete
deriving DecidableEq, Repr

/-- One cooperative step of the polling machine. -/
def pollStep (c : PollCfg) : PollAct → PollCfg
  | .fetchReturn st =>
    match c.loop with
    | .awaitingFetch =>
      let c1 := { c with
        fetchesCompleted := c.fetchesCompleted + 1,
        fetchesCompletedAfterAbort :=
          c.fetchesCompletedAfterAbort + (if c.aborted then 1 else 0) }
      -- `if (abortController.signal.aborted) break;` then the callback,
      -- then `if (measurement.status !== 'in-progress') break;`
      if c1.aborted then { c1 with loop := .exited }
      else
        let c2 := { c1 with
          callbacks := c1.callbacks + 1,
          callbacksAfterAbort := c1.callbacksAfterAbort + (if c1.aborted then 1 else 0) }
        match st with
        | .inProgress => { c2 with loop := .waitingInterval }
        | .finished => { c2 with loop := .exited }
    | _ => c
  | .fetchFail =>
    match c.loop with
    | .awaitingFetch =>
      -- the catch swallows the failure and breaks out of the loop
      { c with
        fetchesCompleted := c.fetchesCompleted + 1,
        fetchesCompletedAfterAbort :=
          c.fetchesCompletedAfterAbort + (if c.aborted then 1 else 0),
        loop := .exited }
    | _ => c
  | .timerFire =>
    match c.loop with
    | .waitingInterval =>
      if c.aborted then
        -- abort already cleared/preempted the timer; the loop leaves via
        -- the rejection or the `while (!aborted)` check, without fetching
        { c with loop := .exited }
      else
        -- back to `while (!aborted)`: true, so `getMeasurement` is issued
        { c with
          fetchesStarted := c.fetchesStarted + 1,
          fetchesStartedAfterAbort :=
            c.fetchesStartedAfterAbort + (if c.aborted then 1 else 0),
          loop := .awaitingFetch }
    | _ => c
  | .abortResume =>
    match c.loop with
    | .waitingInterval =>
      -- the abort listener rejected the interval promise: catch, break
      if c.aborted then { c with loop := .exited } else c
    | _ => c
  | .primaryComplete =>
    if c.primaryDone then c
    else { c with primaryDone := true, aborted := true }

/-- Run a schedule of actions. -/
def pollRun (c : PollCfg) (acts : List PollAct) : PollCfg :=
  acts.foldl pollStep c

/-- The machine's state right after `pollMeasurement` started the secondary
loop: the loop ran synchronously to its first `getMeasurement` call and the
primary promise is pending. -/
def pollCfg0 : PollCfg :=
  { aborted := false,
    primaryDone := false,
    loop := .awaitingFetch,
    fetchesStarted := 1,
    fetchesCompleted := 0,
    callbacks := 0,
    fetchesStartedAfterAbort := 0,
    fetchesCompletedAfterAbort := 0,
    callbacksAfterAbort := 0 }

/-! ## Proof-supporting definitions -/

/-- Invariant of the `ensureInitialized` machine when the constructor's
attempt (task 0) succeeds: task 0 is the only attempt ever started, the
promise field only ever holds it, and every caller is at the entry block,
suspended on task 0, or returned successfully. -/
def InitInv (cfg : InitCfg) : Prop :=
  (cfg.tasks = [.pending] ∧ cfg.initPromise = some 0
    ∨ cfg.tasks = [.fulfilled] ∧ cfg.clientValid = true)
  ∧ (cfg.initPromise = none ∨ cfg.initPromise = some 0)
  ∧ ∀ c ∈ cfg.callers, c = .start ∨ c = .awaitingShared 0 ∨ c = .doneOk

/-- Invariant of the polling machine: no fetch starts and no callback runs
after the abort signal, and at most one (already in-flight) fetch completes
after it. -/
def PollInv (c : PollCfg) : Prop :=
  c.fetchesStartedAfterAbort = 0
  ∧ c.callbacksAfterAbort = 0
  ∧ c.fetchesCompletedAfterAbort ≤ 1
  ∧ (c.aborted = false → c.fetchesCompletedAfterAbort = 0)
  ∧ (c.aborted = true → c.loop = .awaitingFetch → c.fetchesCompletedAfterAbort = 0)

/-- Attempt outcomes under which the constructor's attempt and a first
retry fail while a second retry succeeds. -/
def initFailOutcome : Nat → Bool := fun p => p == 2

/-- A realizable event-loop schedule for two callers of `ensureInitialized`
whose shared awaited initialization fails: both suspend on task 0, task 0
rejects, then each caller's continuation starts its own retry attempt. -/
def initFailSched : List InitEnt :=
  [.callerEnt 0, .callerEnt 1, .taskEnt 0, .callerEnt 0, .callerEnt 1,
   .taskEnt 1, .taskEnt 2, .callerEnt 0, .callerEnt 1]

/-- A 401-status `ApiError` whose `message` happens to contain the
client-not-ready marker that `normalizeError` checks before the status
table. -/
def authInitMsgErr : JsErr :=
  { api := some { status := 401, dataMessage := some "Invalid token" },
    message := some "Cannot read properties of undefined (reading createMeasurement)" }

/-- A `getRateLimits` call during which `ensureInitialized` fails (the
error it throws per its catch block). -/
def grlInitFail : GRLBehavior :=
  { initOutcome := .error (.generic
      "Failed to initialize Globalping client: getaddrinfo ENOTFOUND api.globalping.io. Please check your network connection and try again."),
    limitsResult := .ok { ok := true } }

/-- A raw transport error with HTTP status 429 and no rate-limit headers. -/
def err429 : JsErr := { resp := some { status := 429 } }

/-- `e.resp?.status`. -/
def statusOf (e : JsErr) : Option Nat := e.resp.map (·.status)

/-! # Theorems about the claims -/

/-- C8: the Rate Limit Tracker's pure retry-policy functions satisfy
`getBackoffDelay a = 1000 * 2 ^ a` (1000, 2000, 4000, 8000, 16000 ms for
attempts 0..4) and `shouldRetry a` holds exactly when `a < 5`. -/
theorem backoff_retry_policy :
    (∀ a : Nat, getBackoffDelay a = 1000 * 2 ^ a)
    ∧ getBackoffDelay 0 = 1000 ∧ getBackoffDelay 1 = 2000 ∧ getBackoffDelay 2 = 4000
    ∧ getBackoffDelay 3 = 8000 ∧ getBackoffDelay 4 = 16000
    ∧ (∀ a : Nat, shouldRetry a = decide (a < 5))
    ∧ shouldRetry 0 = true ∧ shouldRetry 4 = true ∧ shouldRetry 5 = false := by
  refine ⟨fun a => rfl, by decide, by decide, by decide, by decide, by decide,
    fun a => rfl, by decide, by decide, by decide⟩

/-- C9: `pollMeasurement` resolves a falsy `interval: 0` to the default
2000 ms and a falsy `timeout: 0` to the kind-specific default
(30000 for ping/dns, 45000 for http, 60000 for traceroute, 90000 for mtr)
instead of honouring the explicit zero. -/
theorem poll_zero_option_defaults :
    resolvedInterval (some { interval := some 0, timeout := some 0 }) = 2000
    ∧ (∀ type : MeasurementType,
        resolvedTimeout (some { interval := some 0, timeout := some 0 }) type = timeouts type)
    ∧ resolvedTimeout (some { interval := some 0, timeout := some 0 }) .ping = 30000
    ∧ resolvedTimeout (some { interval := some 0, timeout := some 0 }) .dns = 30000
    ∧ resolvedTimeout (some { interval := some 0, timeout := some 0 }) .http = 45000
    ∧ resolvedTimeout (some { interval := some 0, timeout := some 0 }) .traceroute = 60000
    ∧ resolvedTimeout (some { interval := some 0, timeout := some 0 }) .mtr = 90000 := by
  refine ⟨by decide, fun type => ?_, by decide, by decide, by decide, by decide, by decide⟩
  cases type <;> decide

/-- Helper: the status table of `normalizeError`, case by case. -/
theorem statusSwitch_spec (s : Nat) (m : String) :
    (s = 400 → statusSwitch s m = .validation m)
    ∧ (s = 401 → statusSwitch s m = .authentication m)
    ∧ (s = 403 → statusSwitch s m = .authentication m)
    ∧ (s = 429 → statusSwitch s m = .rateLimit { message := m })
    ∧ (s = 404 → statusSwitch s m = .generic "Resource not found")
    ∧ (s = 422 → statusSwitch s m = .generic m)
    ∧ (s = 500 → statusSwitch s m = .server m (some 500))
    ∧ (s = 502 → statusSwitch s m = .server m (some 502))
    ∧ (s = 503 → statusSwitch s m = .server m (some 503))
    ∧ (s ≠ 400 → s ≠ 401 → s ≠ 403 → s ≠ 429 → s ≠ 404 → s ≠ 422 →
        s ≠ 500 → s ≠ 502 → s ≠ 503 → statusSwitch s m = .generic m) := by
  refine ⟨?_, ?_, ?_, ?_, ?_, ?_, ?_, ?_, ?_, ?_⟩ <;> intro h
  case _ => rw [h]; rfl
  case _ => rw [h]; rfl
  case _ => rw [h]; rfl
  case _ => rw [h]; rfl
  case _ => rw [h]; rfl
  case _ => rw [h]; rfl
  case _ => rw [h]; rfl
  case _ => rw [h]; rfl
  case _ => rw [h]; rfl
  case _ => intro h2 h3 h4 h5 h6 h7 h8 h9
            simp [statusSwitch, h, h2, h3, h4, h5, h6, h7, h8, h9]

/-- Helper: `normalizeError` reduces to the status table on an `ApiError`
that is not preempted by the rate-limit pass-through or the
client-not-ready message check. -/
theorem normalizeError_api_eq (e : JsErr) (a : ApiErrInfo)
    (hrl : e.rl = none) (hapi : e.api = some a)
    (hm : strContains (jsStrOr e.message none) "Cannot read properties of undefined" = false) :
    normalizeError (some e) = statusSwitch a.status (jsStrOr a.dataMessage e.message) := by
  obtain ⟨rl, api, resp, msg, code⟩ := e
  simp only at hrl hapi hm
  subst hrl hapi
  simp [normalizeError, hm]

/-- Helper: `normalizeError` reduces to the status table on a legacy
`error.response` failure that is not preempted. -/
theorem normalizeError_resp_eq (e : JsErr) (r : RespInfo)
    (hrl : e.rl = none) (hapi : e.api = none) (hresp : e.resp = some r)
    (hm : strContains (jsStrOr e.message none) "Cannot read properties of undefined" = false) :
    normalizeError (some e) = statusSwitch r.status (jsStrOr r.dataMessage e.message) := by
  obtain ⟨rl, api, resp, msg, code⟩ := e
  simp only at hrl hapi hresp hm
  subst hrl hapi hresp
  simp [normalizeError, hm]

/-- C4 counterexample: a raw error carrying HTTP status 401 whose message
contains "Cannot read properties of undefined" is normalized to the generic
client-not-ready error, not to `Authentication` — refuting "401/403 to
Authentication (regardless of message content)". -/
theorem normalize_authlike_message_cex :
    authInitMsgErr.api = some { status := 401, dataMessage := some "Invalid token" }
    ∧ normalizeError (some authInitMsgErr)
        = .generic "Globalping client not initialized. Please try again."
    ∧ normalizeError (some authInitMsgErr) ≠ .authentication "Invalid token" := by
  refine ⟨rfl, by decide, by decide⟩

/-- C4 (amended): `normalizeError` implements the priority table — null maps
to `Generic("Unknown error occurred")`; a recognized `RateLimit` error passes
through unchanged; an error carrying an HTTP-like status (`ApiError` or
legacy `error.response`) whose message does not contain the
"Cannot read properties of undefined" marker (which is checked first and
yields a generic client-not-ready error) maps 400 to Validation, 401/403 to
Authentication regardless of the remaining message content, 429 to
RateLimit, 404 to `Generic "Resource not found"`, 422 to Generic with the
body message, 500/502/503 to Server carrying the status, and any other
status to Generic; the same single function is applied for every
operation. -/
theorem normalizeError_classification :
    normalizeError none = .generic "Unknown error occurred"
    ∧ (∀ e : JsErr, ∀ p : RLPayload, e.rl = some p → normalizeError (some e) = .rateLimit p)
    ∧ (∀ e : JsErr, ∀ a : ApiErrInfo, e.rl = none → e.api = some a →
        strContains (jsStrOr e.message none) "Cannot read properties of undefined" = false →
        ((a.status = 400 → normalizeError (some e) = .validation (jsStrOr a.dataMessage e.message))
        ∧ (a.status = 401 → normalizeError (some e) = .authentication (jsStrOr a.dataMessage e.message))
        ∧ (a.status = 403 → normalizeError (some e) = .authentication (jsStrOr a.dataMessage e.message))
        ∧ (a.status = 429 → normalizeError (some e) = .rateLimit { message := jsStrOr a.dataMessage e.message })
        ∧ (a.status = 404 → normalizeError (some e) = .generic "Resource not found")
        ∧ (a.status = 422 → normalizeError (some e) = .generic (jsStrOr a.dataMessage e.message))
        ∧ (a.status = 500 → normalizeError (some e) = .server (jsStrOr a.dataMessage e.message) (some 500))
        ∧ (a.status = 502 → normalizeError (some e) = .server (jsStrOr a.dataMessage e.message) (some 502))
        ∧ (a.status = 503 → normalizeError (some e) = .server (jsStrOr a.dataMessage e.message) (some 503))
        ∧ (a.status ≠ 400 → a.status ≠ 401 → a.status ≠ 403 → a.status ≠ 429 → a.status ≠ 404 →
            a.status ≠ 422 → a.status ≠ 500 → a.status ≠ 502 → a.status ≠ 503 →
            normalizeError (some e) = .generic (jsStrOr a.dataMessage e.message))))
    ∧ (∀ e : JsErr, ∀ r : RespInfo, e.rl = none → e.api = none → e.resp = some r →
        strContains (jsStrOr e.message none) "Cannot read properties of undefined" = false →
        ((r.status = 400 → normalizeError (some e) = .validation (jsStrOr r.dataMessage e.message))
        ∧ (r.status = 401 → normalizeError (some e) = .authentication (jsStrOr r.dataMessage e.message))
        ∧ (r.status = 403 → normalizeError (some e) = .authentication (jsStrOr r.dataMessage e.message))
        ∧ (r.status = 429 → normalizeError (some e) = .rateLimit { message := jsStrOr r.dataMessage e.message })
        ∧ (r.status = 404 → normalizeError (some e) = .generic "Resource not found")
        ∧ (r.status = 422 → normalizeError (some e) = .generic (jsStrOr r.dataMessage e.message))
        ∧ (r.status = 500 → normalizeError (some e) = .server (jsStrOr r.dataMessage e.message) (some 500))
        ∧ (r.status = 502 → normalizeError (some e) = .server (jsStrOr r.dataMessage e.message) (some 502))
        ∧ (r.status = 503 → normalizeError (some e) = .server (jsStrOr r.dataMessage e.message) (some 503))
        ∧ (r.status ≠ 400 → r.status ≠ 401 → r.status ≠ 403 → r.status ≠ 429 → r.status ≠ 404 →
            r.status ≠ 422 → r.status ≠ 500 → r.status ≠ 502 → r.status ≠ 503 →
            normalizeError (some e) = .generic (jsStrOr r.dataMessage e.message)))) := by
  refine ⟨rfl, ?_, ?_, ?_⟩
  · intro e p hp
    obtain ⟨rl, api, resp, msg, code⟩ := e
    simp only at hp
    subst hp
    rfl
  · intro e a hrl hapi hm
    have heq := normalizeError_api_eq e a hrl hapi hm
    have hs := statusSwitch_spec a.status (jsStrOr a.dataMessage e.message)
    rw [heq]
    exact hs
  · intro e r hrl hapi hresp hm
    have heq := normalizeError_resp_eq e r hrl hapi hresp hm
    have hs := statusSwitch_spec r.status (jsStrOr r.dataMessage e.message)
    rw [heq]
    exact hs

/-- C4 witness: the amended classification applied to a concrete
401 `ApiError` and to a concrete already-normalized rate-limit error. -/
theorem normalizeError_classification_witness :
    normalizeError (some { api := some { status := 401, dataMessage := some "Invalid token" } })
      = .authentication "Invalid token"
    ∧ normalizeError (some { rl := some { message := "Rate limit exceeded." } })
      = .rateLimit { message := "Rate limit exceeded." } := by
  have h := normalizeError_classification
  constructor
  · have := (h.2.2.1 { api := some { status := 401, dataMessage := some "Invalid token" } }
      { status := 401, dataMessage := some "Invalid token" } rfl rfl (by decide)).2.1 rfl
    simpa using this
  · exact h.2.1 { rl := some { message := "Rate limit exceeded." } }
      { message := "Rate limit exceeded." } rfl

/-- C7: on a 429 response with headers `retry-after=5`,
`x-ratelimit-limit=100`, `x-ratelimit-remaining=0`, `x-ratelimit-reset=1000`
(seconds), `handleResponse` sets the limited flag, stores the reset time and
throws a `RateLimitError` with `retryAfter=5`, `limit=100`, `remaining=0`;
any 429 response — whatever headers are missing — still sets the flag and
throws; afterwards `isCurrentlyRateLimited` returns `true` (leaving the
state alone) until `now` passes the reset time, and the first call after
that clears both fields and returns `false`. -/
theorem rate_limit_scenario :
    handleResponse
        { status := 429,
          headers := { retryAfter := some "5", xLimit := some "100",
                       xRemaining := some "0", xReset := some "1000" } } {}
      = ({ isRateLimited := true, nextResetTime := some (.atMs 1000000) },
         some { message := "Rate limit exceeded. Retry after 5 seconds.",
                retryAfter := some 5, limit := some 100, remaining := some 0,
                reset := some (.atMs 1000000) })
    ∧ (∀ hs : Headers,
        (handleResponse { status := 429, headers := hs } {}).1.isRateLimited = true
        ∧ (handleResponse { status := 429, headers := hs } {}).2.isSome = true)
    ∧ (∀ now : Int, now ≤ 1000000 →
        isCurrentlyRateLimited now
            { isRateLimited := true, nextResetTime := some (.atMs 1000000) }
          = (true, { isRateLimited := true, nextResetTime := some (.atMs 1000000) }))
    ∧ (∀ now : Int, 1000000 < now →
        isCurrentlyRateLimited now
            { isRateLimited := true, nextResetTime := some (.atMs 1000000) }
          = (false, { isRateLimited := false, nextResetTime := none })) := by
  refine ⟨by decide, fun hs => ⟨?_, ?_⟩, fun now h => ?_, fun now h => ?_⟩
  · simp [handleResponse]
  · simp [handleResponse]
  · have hng : nowGt now (JsDate.atMs 1000000) = false := by
      simp only [nowGt, decide_eq_false_iff_not]
      omega
    simp [isCurrentlyRateLimited, hng]
  · have hng : nowGt now (JsDate.atMs 1000000) = true := by
      simp only [nowGt, decide_eq_true_eq]
      omega
    simp [isCurrentlyRateLimited, hng]

/-- C7 witness: the lazy-clear clauses at `now = 0` and `now = 1000001`. -/
theorem rate_limit_scenario_witness :
    isCurrentlyRateLimited 0
        { isRateLimited := true, nextResetTime := some (.atMs 1000000) }
      = (true, { isRateLimited := true, nextResetTime := some (.atMs 1000000) })
    ∧ isCurrentlyRateLimited 1000001
        { isRateLimited := true, nextResetTime := some (.atMs 1000000) }
      = (false, { isRateLimited := false, nextResetTime := none }) := by
  have h := rate_limit_scenario
  exact ⟨h.2.2.1 0 (by decide), h.2.2.2 1000001 (by decide)⟩

/-- C10 counterexample: when `ensureInitialized` fails, `getRateLimits`
propagates the resulting `GlobalpingError` — a non-authentication failure —
to its caller, refuting "getRateLimits never propagates a
non-authentication failure". -/
theorem getRateLimits_init_failure_cex :
    throwsNonAuth (getRateLimits grlInitFail) = true
    ∧ getRateLimits grlInitFail = .error (.gp (.generic
        "Failed to initialize Globalping client: getaddrinfo ENOTFOUND api.globalping.io. Please check your network connection and try again.")) := by
  exact ⟨rfl, rfl⟩

/-- C10 (amended): provided client initialization succeeded, `getRateLimits`
never propagates a non-authentication failure: a failure of the underlying
limits call other than 401/403 yields `null`, a response whose data lacks
the nested create-limit fields yields `null`, and only a 401/403 status
causes a throw, always as `AuthenticationError`. -/
theorem getRateLimits_non_auth_null (b : GRLBehavior)
    (hinit : b.initOutcome = .ok ()) :
    throwsNonAuth (getRateLimits b) = false
    ∧ (∀ e, b.limitsResult = .error e → getRateLimits b = .ok none)
    ∧ (∀ resp tok, b.clientPresent = true → b.tokenResult = .ok tok →
        b.limitsResult = .ok resp → resp.ok = false →
        ((resp.status = some 401 ∨ resp.status = some 403 →
          getRateLimits b = .error (.gp (.authentication
            (jsStrOr resp.errMessage (some "Invalid or expired API token")))))
        ∧ (resp.status ≠ some 401 → resp.status ≠ some 403 →
            getRateLimits b = .ok none)))
    ∧ (∀ resp, b.clientPresent = true → b.limitsResult = .ok resp → resp.ok = true →
        ((resp.data.create = none → getRateLimits b = .ok none)
        ∧ (∀ c, resp.data.create = some c → (c.limit = none ∨ c.remaining = none) →
            getRateLimits b = .ok none))) := by
  obtain ⟨init, cp, tokr, limr⟩ := b
  simp only at hinit
  subst hinit
  refine ⟨?_, ?_, ?_, ?_⟩
  · show throwsNonAuth (getRateLimits ⟨.ok (), cp, tokr, limr⟩) = false
    unfold getRateLimits
    cases cp
    · rfl
    · simp only [Bool.not_true, Bool.false_eq_true, if_false]
      rcases h : getRateLimitsTry tokr limr with se | v
      · rcases se with g | e
        · cases g <;> rfl
        · rfl
      · rfl
  · intro e hlim
    simp only at hlim
    subst hlim
    unfold getRateLimits
    cases cp
    · rfl
    · cases tokr <;> rfl
  · intro resp tok hcp htok hlim
    simp only at hcp htok hlim
    subst hcp htok hlim
    intro hok
    constructor
    · intro hstat
      unfold getRateLimits getRateLimitsTry
      rcases hstat with h1 | h1 <;> simp [hok, h1]
    · intro h1 h3
      unfold getRateLimits getRateLimitsTry
      simp [hok, h1, h3]
  · intro resp hcp hlim hok
    simp only at hcp hlim
    subst hcp hlim
    constructor
    · intro hcreate
      unfold getRateLimits
      cases tokr
      · rfl
      · unfold getRateLimitsTry
        simp [hok, hcreate]
    · intro c hcreate hmiss
      unfold getRateLimits
      cases tokr
      · rfl
      · unfold getRateLimitsTry
        rcases hmiss with hm | hm <;>
          rcases hl : c.limit with _ | l <;> rcases hr : c.remaining with _ | r <;>
            simp_all [hok, hcreate]

/-- C10 witness: the amended guarantees at concrete behaviours — a 500-status
limits failure yields `null`, a 401 yields `AuthenticationError`, and
incomplete create-limit data yields `null`. -/
theorem getRateLimits_non_auth_null_witness :
    getRateLimits { initOutcome := .ok (),
                    limitsResult := .ok { ok := false, status := some 500 } } = .ok none
    ∧ getRateLimits { initOutcome := .ok (),
                      limitsResult := .ok { ok := false, status := some 401 } }
        = .error (.gp (.authentication "Invalid or expired API token"))
    ∧ getRateLimits
        { initOutcome := .ok (),
          limitsResult := .ok { ok := true, data := { create := some { limit := some 250 } } } }
      = .ok none := by
  refine ⟨?_, ?_, ?_⟩
  · exact ((getRateLimits_non_auth_null
      { initOutcome := .ok (), limitsResult := .ok { ok := false, status := some 500 } }
      rfl).2.2.1 { ok := false, status := some 500 } none rfl rfl rfl rfl).2
      (by decide) (by decide)
  · have := ((getRateLimits_non_auth_null
      { initOutcome := .ok (), limitsResult := .ok { ok := false, status := some 401 } }
      rfl).2.2.1 { ok := false, status := some 401 } none rfl rfl rfl rfl).1 (Or.inl rfl)
    simpa using this
  · exact ((getRateLimits_non_auth_null
      { initOutcome := .ok (),
        limitsResult := .ok { ok := true, data := { create := some { limit := some 250 } } } }
      rfl).2.2.2 { ok := true, data := { create := some { limit := some 250 } } }
      rfl rfl rfl).2 { limit := some 250 } rfl (Or.inr rfl)

/-- Helper: the shared body of the `executeWithRetry`-wrapped operations
never surfaces a raw error. -/
theorem clientOp_no_raw {α : Type} (b : OpBehavior α) (s : RLState) :
    surfacedRaw (clientOp b s) = false := by
  unfold clientOp
  rcases b.initOutcome with g | u
  · rfl
  · cases b.clientPresent
    · rfl
    · simp only [Bool.not_true, Bool.false_eq_true, if_false]
      rcases (executeWithRetry b.opResults s).result with e | response
      · rfl
      · obtain ⟨rok, rst, rem, rd⟩ := response
        cases rok <;> rfl

/-- Helper: `pollMeasurement` never surfaces a raw error. -/
theorem pollMeasurement_no_raw {α : Type} (pb : PollBehavior α) :
    surfacedRaw (pollMeasurement pb) = false := by
  unfold pollMeasurement
  rcases pb.initOutcome with g | u
  · rfl
  · cases pb.clientPresent
    · rfl
    · simp only [Bool.not_true, Bool.false_eq_true, if_false]
      rcases pb.awaitResult with e | response
      · rfl
      · obtain ⟨rok, rst, rem, rd⟩ := response
        cases rok <;> rfl

/-- C6: every failure surfaced by `createMeasurement`, `getMeasurement`,
`pollMeasurement` or `getProbes` is a normalized `GlobalpingError` — never a
raw transport-library error — and a raw failure of the wrapped call
(`executeWithRetry` / `awaitMeasurement`) reaches the caller exactly as
`normalizeError` of that failure. -/
theorem no_raw_error_escapes {α : Type} (b : OpBehavior α) (pb : PollBehavior α)
    (s : RLState) :
    surfacedRaw (createMeasurement b s) = false
    ∧ surfacedRaw (getMeasurement b s) = false
    ∧ surfacedRaw (getProbes b s) = false
    ∧ surfacedRaw (pollMeasurement pb) = false
    ∧ (∀ e, b.initOutcome = .ok () → b.clientPresent = true →
        (executeWithRetry b.opResults s).result = .error e →
        createMeasurement b s = .error (.gp (normalizeError (some e))))
    ∧ (∀ e, pb.initOutcome = .ok () → pb.clientPresent = true →
        pb.awaitResult = .error e →
        pollMeasurement pb = .error (.gp (normalizeError (some e)))) := by
  refine ⟨clientOp_no_raw b s, clientOp_no_raw b s, clientOp_no_raw b s,
    pollMeasurement_no_raw pb, ?_, ?_⟩
  · intro e hinit hcp hres
    unfold createMeasurement clientOp
    simp only [hinit, hcp, hres, Bool.not_true, Bool.false_eq_true, if_false]
  · intro e hinit hcp hres
    unfold pollMeasurement
    simp only [hinit, hcp, hres, Bool.not_true, Bool.false_eq_true, if_false]

/-- C6 witness: the boundary guarantee at a concrete behaviour whose wrapped
call throws a raw 503 transport error. -/
theorem no_raw_error_escapes_witness :
    createMeasurement
        { initOutcome := .ok (),
          opResults := fun _ => (.error { resp := some { status := 503 } } : Except JsErr (ApiResponse Nat)) }
        {}
      = .error (.gp (.server "" (some 503))) := by
  have h := (no_raw_error_escapes
    { initOutcome := .ok (),
      opResults := fun _ => (.error { resp := some { status := 503 } } : Except JsErr (ApiResponse Nat)) }
    { initOutcome := .ok (), awaitResult := .ok { ok := true, data := (0 : Nat) } }
    {}).2.2.2.2.1 { resp := some { status := 503 } } rfl rfl rfl
  exact h

/-- C1 evidence: when an operation fails with a 429-status error,
`executeWithRetry` awaits `handleResponse`, whose thrown `RateLimitError`
propagates out of the executor at once: exactly one invocation, no backoff
wait, although `shouldRetry 0` is true — the backed-off retry branch after
the `handleResponse` call is unreachable. -/
theorem rate_limit_propagates_immediately {α : Type} (op : Nat → Except JsErr α)
    (s s1 : RLState) (e : JsErr) (r : RespInfo) (p : RLPayload)
    (h0 : op 0 = .error e) (hr : e.resp = some r) (h429 : r.status = 429)
    (hh : handleResponse r s = (s1, some p)) :
    executeWithRetry op s
      = { result := .error (jsErrOfRL p), invocations := 1, waits := [], state := s1 }
    ∧ shouldRetry 0 = true := by
  constructor
  · unfold executeWithRetry
    simp [executeWithRetryAux, h0, hr, h429, hh]
  · rfl

/-- C1 witness: a concrete operation failing with a bare 429 response is
invoked once and the handler's `RateLimitError` propagates with no waits. -/
theorem rate_limit_propagates_immediately_witness :
    executeWithRetry (fun _ => (.error err429 : Except JsErr Nat)) {}
      = { result := .error (jsErrOfRL
            { message := "Rate limit exceeded. Please wait before retrying." }),
          invocations := 1, waits := [],
          state := { isRateLimited := true, nextResetTime := none } } := by
  exact (rate_limit_propagates_immediately (fun _ => (.error err429 : Except JsErr Nat))
    {} { isRateLimited := true, nextResetTime := none } err429 { status := 429 }
    { message := "Rate limit exceeded. Please wait before retrying." }
    rfl rfl rfl rfl).1

/-- Helper: what one more attempt at index 1 produces. -/
theorem execAux_attempt1 {α : Type} (op : Nat → Except JsErr α) (s : RLState)
    (le : Option JsErr) :
    (∀ v, op 1 = .ok v →
      executeWithRetryAux op 5 1 s le
        = { result := .ok v, invocations := 1, waits := [], state := s })
    ∧ (∀ e1, op 1 = .error e1 → statusOf e1 ≠ some 429 →
      executeWithRetryAux op 5 1 s le
        = { result := .error e1, invocations := 1, waits := [], state := s })
    ∧ (∀ e1 r1 s1 p1, op 1 = .error e1 → e1.resp = some r1 → r1.status = 429 →
      handleResponse r1 s = (s1, some p1) →
      executeWithRetryAux op 5 1 s le
        = { result := .error (jsErrOfRL p1), invocations := 1, waits := [], state := s1 }) := by
  refine ⟨?_, ?_, ?_⟩
  · intro v h1
    simp [executeWithRetryAux, h1]
  · intro e1 h1 hns
    rcases he1 : e1.resp with _ | r1
    · simp [executeWithRetryAux, h1, he1]
    · have hne : ¬ (r1.status = 429) := by
        intro hcon
        exact hns (by simp [statusOf, he1, hcon])
      simp [executeWithRetryAux, h1, he1, hne]
  · intro e1 r1 s1 p1 h1 he1 h429 hh
    simp [executeWithRetryAux, h1, he1, h429, hh]

/-- C5: an attempt-0 failure carrying a 5xx status, or network-shaped (and
not 429-status, which the executor checks first), is retried exactly once
after a fixed 2000 ms wait; if attempt 1 succeeds its value is returned, and
if attempt 1 fails with any error there is no third attempt and that failure
propagates (for a 429 on the retry, as the `RateLimitError` the rate-limit
observer throws). -/
theorem server_network_one_shot_retry {α : Type} (op : Nat → Except JsErr α)
    (s : RLState) (e0 : JsErr)
    (h0 : op 0 = .error e0)
    (hkind : (∃ r0, e0.resp = some r0 ∧ 500 ≤ r0.status ∧ r0.status < 600)
        ∨ (isNetworkError e0 = true ∧ statusOf e0 ≠ some 429)) :
    (∀ v, op 1 = .ok v →
      executeWithRetry op s
        = { result := .ok v, invocations := 2, waits := [2000], state := s })
    ∧ (∀ e1, op 1 = .error e1 →
        (executeWithRetry op s).invocations = 2
        ∧ (executeWithRetry op s).waits = [2000]
        ∧ (statusOf e1 ≠ some 429 → (executeWithRetry op s).result = .error e1)
        ∧ (∀ r1 s1 p1, e1.resp = some r1 → r1.status = 429 →
            handleResponse r1 s = (s1, some p1) →
            (executeWithRetry op s).result = .error (jsErrOfRL p1))) := by
  have hstep : executeWithRetry op s =
      { result := (executeWithRetryAux op 5 1 s (some e0)).result,
        invocations := (executeWithRetryAux op 5 1 s (some e0)).invocations + 1,
        waits := 2000 :: (executeWithRetryAux op 5 1 s (some e0)).waits,
        state := (executeWithRetryAux op 5 1 s (some e0)).state } := by
    unfold executeWithRetry
    rcases hkind with ⟨r0, hr0, h5a, h5b⟩ | ⟨hnet, hn429⟩
    · have hne : ¬ (r0.status = 429) := by omega
      simp [executeWithRetryAux, h0, hr0, hne, h5a, h5b]
    · rcases he0 : e0.resp with _ | r0
      · simp [executeWithRetryAux, h0, he0, hnet]
      · have hne : ¬ (r0.status = 429) := by
          intro hcon
          exact hn429 (by simp [statusOf, he0, hcon])
        by_cases h5 : 500 ≤ r0.status ∧ r0.status < 600
        · simp [executeWithRetryAux, h0, he0, hne, h5.1, h5.2]
        · have hcond : (500 ≤ r0.status && r0.status < 600 && (0 == 0)) = false := by
            simp only [Bool.and_eq_false_iff, decide_eq_false_iff_not]
            omega
          simp [executeWithRetryAux, h0, he0, hne, hcond, hnet]
  obtain ⟨hA1, hA2, hA3⟩ := execAux_attempt1 op s (some e0)
  refine ⟨?_, ?_⟩
  · intro v h1
    rw [hstep, hA1 v h1]
  · intro e1 h1
    refine ⟨?_, ?_, ?_, ?_⟩
    · rw [hstep]
      rcases he1 : statusOf e1 with _ | st
      · rw [hA2 e1 h1 (by simp [he1])]
      · by_cases h429 : st = 429
        · subst h429
          rcases hre : e1.resp with _ | r1
          · exact absurd (by simp [statusOf, hre] : statusOf e1 = none) (by simp [he1])
          · have hr429 : r1.status = 429 := by
              have : statusOf e1 = some r1.status := by simp [statusOf, hre]
              rw [he1] at this
              exact (Option.some.inj this).symm
            rcases hhr : handleResponse r1 s with ⟨s1, po⟩
            rcases po with _ | p1
            · exfalso
              have : (handleResponse r1 s).2.isSome = true := by
                simp [handleResponse, hr429]
              rw [hhr] at this
              simp at this
            · rw [hA3 e1 r1 s1 p1 h1 hre hr429 hhr]
        · rw [hA2 e1 h1 (by simp [he1, h429])]
    · rw [hstep]
      rcases he1 : statusOf e1 with _ | st
      · rw [hA2 e1 h1 (by simp [he1])]
      · by_cases h429 : st = 429
        · subst h429
          rcases hre : e1.resp with _ | r1
          · exact absurd (by simp [statusOf, hre] : statusOf e1 = none) (by simp [he1])
          · have hr429 : r1.status = 429 := by
              have : statusOf e1 = some r1.status := by simp [statusOf, hre]
              rw [he1] at this
              exact (Option.some.inj this).symm
            rcases hhr : handleResponse r1 s with ⟨s1, po⟩
            rcases po with _ | p1
            · exfalso
              have : (handleResponse r1 s).2.isSome = true := by
                simp [handleResponse, hr429]
              rw [hhr] at this
              simp at this
            · rw [hA3 e1 r1 s1 p1 h1 hre hr429 hhr]
        · rw [hA2 e1 h1 (by simp [he1, h429])]
    · intro hns
      rw [hstep, hA2 e1 h1 hns]
    · intro r1 s1 p1 hre hr429 hhr
      rw [hstep, hA3 e1 r1 s1 p1 h1 hre hr429 hhr]

/-- C5 witness: a stub failing with 500 on attempt 0 and succeeding on
attempt 1 returns the value after one 2000 ms wait and two invocations; the
same stub failing on both attempts surfaces the attempt-1 failure with no
third attempt. -/
theorem server_network_one_shot_retry_witness :
    executeWithRetry
        (fun a => if a = 0 then (.error { resp := some { status := 500 } } : Except JsErr Nat)
                  else .ok 7) {}
      = { result := .ok 7, invocations := 2, waits := [2000], state := {} }
    ∧ (executeWithRetry (fun _ => (.error { resp := some { status := 500 } } : Except JsErr Nat)) {}).invocations = 2
    ∧ (executeWithRetry (fun _ => (.error { resp := some { status := 500 } } : Except JsErr Nat)) {}).result
        = .error { resp := some { status := 500 } } := by
  refine ⟨?_, ?_, ?_⟩
  · exact (server_network_one_shot_retry
      (fun a => if a = 0 then (.error { resp := some { status := 500 } } : Except JsErr Nat) else .ok 7)
      {} { resp := some { status := 500 } } rfl
      (Or.inl ⟨{ status := 500 }, rfl, by decide, by decide⟩)).1 7 rfl
  · exact ((server_network_one_shot_retry
      (fun _ => (.error { resp := some { status := 500 } } : Except JsErr Nat))
      {} { resp := some { status := 500 } } rfl
      (Or.inl ⟨{ status := 500 }, rfl, by decide, by decide⟩)).2
      { resp := some { status := 500 } } rfl).1
  · exact ((server_network_one_shot_retry
      (fun _ => (.error { resp := some { status := 500 } } : Except JsErr Nat))
      {} { resp := some { status := 500 } } rfl
      (Or.inl ⟨{ status := 500 }, rfl, by decide, by decide⟩)).2
      { resp := some { status := 500 } } rfl).2.2.1 (by decide)

/-- C2 counterexample: two callers awaiting the constructor's failing
initialization each start their own retry — after five realizable
event-loop steps two `initializeClient` runs are simultaneously pending,
three attempts are started in total, and the callers observe different
outcomes (one throws, one succeeds). -/
theorem single_flight_cex :
    (initRun initFailOutcome (initCfg0 2) (initFailSched.take 5)).tasks.count .pending = 2
    ∧ (initRun initFailOutcome (initCfg0 2) initFailSched).tasks.length = 3
    ∧ (initRun initFailOutcome (initCfg0 2) initFailSched).callers
        = [.doneErr, .doneOk] := by decide

/-- Helper: the single-flight invariant is preserved by every step while the
in-flight attempt (task 0) is one that succeeds. -/
theorem initStep_inv (outcome : Nat → Bool) (hout : outcome 0 = true)
    (cfg : InitCfg) (h : InitInv cfg) (e : InitEnt) :
    InitInv (initStep outcome cfg e) := by
  obtain ⟨hTasks, hProm, hCall⟩ := h
  have hsetCall : ∀ i : Nat, ∀ v : CallerSt,
      (v = .start ∨ v = .awaitingShared 0 ∨ v = .doneOk) →
      ∀ x ∈ cfg.callers.set i v, x = .start ∨ x = .awaitingShared 0 ∨ x = .doneOk := by
    intro i v hv x hx
    rcases List.mem_or_eq_of_mem_set hx with hx' | rfl
    · exact hCall x hx'
    · exact hv
  cases e with
  | callerEnt i =>
    cases hc : cfg.callers.get? i with
    | none =>
      simp only [initStep, hc]
      exact ⟨hTasks, hProm, hCall⟩
    | some c =>
      have hcmem : c ∈ cfg.callers := List.get?_mem hc
      rcases hCall c hcmem with h1 | h1 | h1 <;> subst h1
      · -- c = .start
        cases hv : cfg.clientValid with
        | true =>
          simp only [initStep, hc, hv, if_true]
          refine ⟨?_, ?_, ?_⟩
          · dsimp only
            rcases hTasks with ⟨ht, hp⟩ | ⟨ht, _⟩
            · exact Or.inl ⟨ht, hp⟩
            · exact Or.inr ⟨ht, rfl⟩
          · dsimp only
            exact hProm
          · dsimp only
            exact hsetCall i _ (Or.inr (Or.inr rfl))
        | false =>
          rcases hTasks with ⟨ht, hp⟩ | ⟨ht, hv'⟩
          · simp only [initStep, hc, hv, Bool.false_eq_true, if_false, hp]
            refine ⟨?_, ?_, ?_⟩
            · dsimp only
              exact Or.inl ⟨ht, rfl⟩
            · dsimp only
              exact Or.inr rfl
            · dsimp only
              exact hsetCall i _ (Or.inr (Or.inl rfl))
          · rw [hv] at hv'
            exact absurd hv' (by decide)
      · -- c = .awaitingShared 0
        rcases hTasks with ⟨ht, hp⟩ | ⟨ht, hv'⟩
        · have ht0 : cfg.tasks.get? 0 = some .pending := by rw [ht]; rfl
          simp only [initStep, hc, ht0]
          exact ⟨Or.inl ⟨ht, hp⟩, hProm, hCall⟩
        · have ht0 : cfg.tasks.get? 0 = some .fulfilled := by rw [ht]; rfl
          simp only [initStep, hc, ht0, hv', if_true]
          refine ⟨?_, ?_, ?_⟩
          · dsimp only
            exact Or.inr ⟨ht, by simp [hv']⟩
          · dsimp only
            exact Or.inl rfl
          · dsimp only
            exact hsetCall i _ (Or.inr (Or.inr rfl))
      · -- c = .doneOk
        simp only [initStep, hc]
        exact ⟨hTasks, hProm, hCall⟩
  | taskEnt p =>
    cases ht : cfg.tasks.get? p with
    | none =>
      simp only [initStep, ht]
      exact ⟨hTasks, hProm, hCall⟩
    | some ts =>
      cases ts with
      | pending =>
        rcases hTasks with ⟨htl, hp⟩ | ⟨htl, hv'⟩
        · have hp0 : p = 0 := by
            rw [htl] at ht
            cases p with
            | zero => rfl
            | succ m => simp at ht
          subst hp0
          simp only [initStep, ht, hout, if_true]
          refine ⟨?_, ?_, ?_⟩
          · dsimp only
            refine Or.inr ⟨?_, rfl⟩
            rw [htl]
            rfl
          · dsimp only
            exact hProm
          · dsimp only
            exact hCall
        · rw [htl] at ht
          cases p with
          | zero => simp at ht
          | succ m => simp at ht
      | fulfilled =>
        simp only [initStep, ht]
        exact ⟨hTasks, hProm, hCall⟩
      | rejected =>
        simp only [initStep, ht]
        exact ⟨hTasks, hProm, hCall⟩

/-- Helper: the invariant holds along any schedule. -/
theorem initRun_inv (outcome : Nat → Bool) (hout : outcome 0 = true)
    (cfg : InitCfg) (h : InitInv cfg) (sched : List InitEnt) :
    InitInv (initRun outcome cfg sched) := by
  induction sched generalizing cfg with
  | nil => exact h
  | cons a t ih => exact ih _ (initStep_inv outcome hout cfg h a)

/-- C2 (amended): while the in-flight initialization is one that succeeds,
no concurrent caller ever starts a second attempt — under every schedule,
for any number of callers, exactly the one constructor-started attempt
exists and every caller that completes observes success. -/
theorem single_flight_success (outcome : Nat → Bool) (hout : outcome 0 = true)
    (n : Nat) (sched : List InitEnt) :
    (initRun outcome (initCfg0 n) sched).tasks.length = 1
    ∧ ∀ c ∈ (initRun outcome (initCfg0 n) sched).callers, c ≠ .doneErr := by
  have hinv0 : InitInv (initCfg0 n) := by
    refine ⟨Or.inl ⟨rfl, rfl⟩, Or.inr rfl, ?_⟩
    intro c hc
    exact Or.inl (List.eq_of_mem_replicate hc)
  obtain ⟨hT, hP, hC⟩ := initRun_inv outcome hout (initCfg0 n) hinv0 sched
  constructor
  · rcases hT with ⟨ht, _⟩ | ⟨ht, _⟩ <;> rw [ht] <;> rfl
  · intro c hc
    rcases hC c hc with rfl | rfl | rfl <;> simp

/-- C2 witness: three callers against a succeeding in-flight attempt, on a
concrete schedule: one attempt total and no caller fails. -/
theorem single_flight_success_witness :
    (initRun (fun _ => true) (initCfg0 3)
        [.callerEnt 0, .callerEnt 1, .taskEnt 0, .callerEnt 2,
         .callerEnt 0, .callerEnt 1]).tasks.length = 1
    ∧ CallerSt.doneErr ∉ (initRun (fun _ => true) (initCfg0 3)
        [.callerEnt 0, .callerEnt 1, .taskEnt 0, .callerEnt 2,
         .callerEnt 0, .callerEnt 1]).callers := by
  have h := single_flight_success (fun _ => true) rfl 3
    [.callerEnt 0, .callerEnt 1, .taskEnt 0, .callerEnt 2, .callerEnt 0, .callerEnt 1]
  exact ⟨h.1, fun hmem => h.2 _ hmem rfl⟩

/-- Helper: the polling race-bound invariant is preserved by every step. -/
theorem pollStep_inv (c : PollCfg) (h : PollInv c) (a : PollAct) :
    PollInv (pollStep c a) := by
  obtain ⟨hS, hC, hF1, hF0, hFA⟩ := h
  cases a with
  | fetchReturn st =>
    cases hl : c.loop with
    | awaitingFetch =>
      cases hab : c.aborted with
      | true =>
        have h0 : c.fetchesCompletedAfterAbort = 0 := hFA hab hl
        cases st <;>
          simp_all [pollStep, PollInv, hl, hab, hS, hC, h0]
      | false =>
        have h0 : c.fetchesCompletedAfterAbort = 0 := hF0 hab
        cases st <;>
          simp_all [pollStep, PollInv, hl, hab, hS, hC, h0]
    | waitingInterval =>
      simp only [pollStep, hl]
      exact ⟨hS, hC, hF1, hF0, fun h1 h2 => by rw [hl] at h2; cases h2⟩
    | exited =>
      simp only [pollStep, hl]
      exact ⟨hS, hC, hF1, hF0, fun h1 h2 => by rw [hl] at h2; cases h2⟩
  | fetchFail =>
    cases hl : c.loop with
    | awaitingFetch =>
      cases hab : c.aborted with
      | true =>
        have h0 : c.fetchesCompletedAfterAbort = 0 := hFA hab hl
        simp_all [pollStep, PollInv, hl, hab, hS, hC, h0]
      | false =>
        have h0 : c.fetchesCompletedAfterAbort = 0 := hF0 hab
        simp_all [pollStep, PollInv, hl, hab, hS, hC, h0]
    | waitingInterval =>
      simp only [pollStep, hl]
      exact ⟨hS, hC, hF1, hF0, fun h1 h2 => by rw [hl] at h2; cases h2⟩
    | exited =>
      simp only [pollStep, hl]
      exact ⟨hS, hC, hF1, hF0, fun h1 h2 => by rw [hl] at h2; cases h2⟩
  | timerFire =>
    cases hl : c.loop with
    | awaitingFetch =>
      simp only [pollStep, hl]
      exact ⟨hS, hC, hF1, hF0, hFA⟩
    | waitingInterval =>
      cases hab : c.aborted with
      | true =>
        simp_all [pollStep, PollInv, hl, hab, hS, hC]
      | false =>
        have h0 : c.fetchesCompletedAfterAbort = 0 := hF0 hab
        simp_all [pollStep, PollInv, hl, hab, hS, hC, h0]
    | exited =>
      simp only [pollStep, hl]
      exact ⟨hS, hC, hF1, hF0, hFA⟩
  | abortResume =>
    cases hl : c.loop with
    | awaitingFetch =>
      simp only [pollStep, hl]
      exact ⟨hS, hC, hF1, hF0, hFA⟩
    | waitingInterval =>
      cases hab : c.aborted with
      | true =>
        simp_all [pollStep, PollInv, hl, hab, hS, hC]
      | false =>
        simp_all [pollStep, PollInv, hl, hab, hS, hC]
    | exited =>
      simp only [pollStep, hl]
      exact ⟨hS, hC, hF1, hF0, hFA⟩
  | primaryComplete =>
    cases hpd : c.primaryDone with
    | true =>
      simp only [pollStep, hpd, if_true]
      exact ⟨hS, hC, hF1, hF0, hFA⟩
    | false =>
      simp only [pollStep, hpd, Bool.false_eq_true, if_false]
      refine ⟨hS, hC, hF1, ?_, ?_⟩
      · intro h1
        dsimp only at h1
        cases h1
      · intro h1 h2
        dsimp only at h2
        cases hab : c.aborted with
        | true => exact hFA hab h2
        | false => exact hF0 hab

/-- Helper: the race-bound invariant holds along any schedule. -/
theorem pollRun_inv (c : PollCfg) (h : PollInv c) (acts : List PollAct) :
    PollInv (pollRun c acts) := by
  induction acts generalizing c with
  | nil => exact h
  | cons a t ih => exact ih _ (pollStep_inv c h a)

/-- C3: under every interleaving of the secondary progress loop, the fetch
environment, and the primary strategy's settlement (whose continuation
aborts in both its success and failure paths), no snapshot fetch is started
and no progress callback is invoked after the abort signal is set, at most
one already-in-flight fetch completes after it, and the loop's interval
wait is left in one step once the abort signal is set, without waiting for
the timer. -/
theorem polling_race_bound (acts : List PollAct) :
    (pollRun pollCfg0 acts).callbacksAfterAbort = 0
    ∧ (pollRun pollCfg0 acts).fetchesStartedAfterAbort = 0
    ∧ (pollRun pollCfg0 acts).fetchesCompletedAfterAbort ≤ 1
    ∧ (∀ c : PollCfg, c.loop = .waitingInterval → c.aborted = true →
        (pollStep c .abortResume).loop = .exited)
    ∧ (∀ c : PollCfg, c.primaryDone = false →
        (pollStep c .primaryComplete).aborted = true) := by
  have hinv0 : PollInv pollCfg0 := by
    refine ⟨rfl, rfl, by decide, fun _ => rfl, fun h1 _ => ?_⟩
    cases h1
  obtain ⟨hS, hC, hF1, _, _⟩ := pollRun_inv pollCfg0 hinv0 acts
  refine ⟨hC, hS, hF1, ?_, ?_⟩
  · intro c hl hab
    simp [pollStep, hl, hab]
  · intro c hpd
    simp [pollStep, hpd]

/-- C3 witness: the interruptible-wait and abort-on-completion clauses at
concrete configurations, and the trace bounds on a concrete schedule. -/
theorem polling_race_bound_witness :
    (pollRun pollCfg0 [.fetchReturn .inProgress, .primaryComplete,
        .abortResume]).callbacksAfterAbort = 0
    ∧ (pollStep { pollCfg0 with loop := .waitingInterval, aborted := true }
        .abortResume).loop = .exited
    ∧ (pollStep pollCfg0 .primaryComplete).aborted = true := by
  have h := polling_race_bound [.fetchReturn .inProgress, .primaryComplete, .abortResume]
  exact ⟨h.1, h.2.2.2.1 _ rfl rfl, h.2.2.2.2 pollCfg0 rfl⟩
